import Mathlib

/-!
Verification of the MapZ tiled-map viewers (src/map.py and src/dash.py)
against their natural-language specification.

The two Python files are shallowly embedded over exact rationals (ℚ):
Python floats become ℚ, the `int(...)` truncation becomes `pytrunc`, the
Python `round` (half to even) becomes `pyRound`, the tile dictionaries become
association lists keyed by (column, row) with an abstract image type, and
the interactive frame loop of each viewer becomes a step function over an
explicit `ViewState` together with an inductive reachability predicate.
`2 ** e` (whose exponent is a float in the source) is modelled by an
arbitrary function parameter `pow2fn : ℚ → ℚ` wherever possible and by
`pow2int` (exact on integer-valued exponents, the only ones any theorem
below ever evaluates) where a concrete value is needed.
-/

namespace MapZ

/-- TILE_SIZE = 256 (map.py line 7, dash.py line 6). -/
def TILE_SIZE : ℚ := 256

/-- SMOOTH_SPEED = 0.2 (map.py line 11, dash.py line 10). -/
def SMOOTH_SPEED : ℚ := 1 / 5

/-- map.py constants: START_ZOOM = 2, MIN_ZOOM = 2, MAX_ZOOM = 5. -/
def MapV.START_ZOOM : ℚ := 2

def MapV.MIN_ZOOM : ℚ := 2

def MapV.MAX_ZOOM : ℚ := 5

/-- dash.py constants: START_ZOOM = 2, MIN_ZOOM = 4, MAX_ZOOM = 5. -/
def DashV.START_ZOOM : ℚ := 2

def DashV.MIN_ZOOM : ℚ := 4

def DashV.MAX_ZOOM : ℚ := 5

/-- Python `int(x)`: truncation toward zero. -/
def pytrunc (q : ℚ) : ℤ := if q < 0 then ⌈q⌉ else ⌊q⌋

/-- Python `int(round(x))`: round half to even. -/
def pyRound (q : ℚ) : ℤ :=
  let f := ⌊q⌋
  let r := q - (f : ℚ)
  if r < 1 / 2 then f
  else if 1 / 2 < r then f + 1
  else if f % 2 = 0 then f else f + 1

/-- Linear interpolation `lerp` (map.py lines 61-62, dash.py lines 60-61). -/
def lerp (a b t : ℚ) : ℚ := a + (b - a) * t

/-- Python `min` over a nonempty list of ints (the `[]` default is never
reached behind the emptiness guard of `clamp_offset`). -/
def listMin : List ℤ → ℤ
  | [] => 0
  | x :: xs => xs.foldl min x

/-- Python `max` over a nonempty list of ints. -/
def listMax : List ℤ → ℤ
  | [] => 0
  | x :: xs => xs.foldl max x

/-- Python `2 ** e` for the integer-valued rational exponents that arise in the
viewers (integer target zooms); only such exponents are ever evaluated in
the theorems below. -/
def pow2int (q : ℚ) : ℚ := if q.den = 1 then (2 : ℚ) ^ q.num else 0

/-- The function `clamp_offset` (map.py lines 65-78, dash.py lines 63-76), with the
tiles dictionary replaced by its key list. -/
def clamp_offset (offset_x offset_y : ℚ) (keys : List (ℤ × ℤ))
    (screen_w screen_h : ℚ) (zoom_scale : ℚ) : ℚ × ℚ :=
  if keys = [] then (offset_x, offset_y)
  else
    let xs := keys.map Prod.fst
    let ys := keys.map Prod.snd
    let min_x := listMin xs
    let max_x := listMax xs
    let min_y := listMin ys
    let max_y := listMax ys
    let max_x_off := -(min_x : ℚ) * TILE_SIZE * zoom_scale
    let min_x_off := screen_w - ((max_x : ℚ) + 1) * TILE_SIZE * zoom_scale
    let max_y_off := -(min_y : ℚ) * TILE_SIZE * zoom_scale
    let min_y_off := screen_h - ((max_y : ℚ) + 1) * TILE_SIZE * zoom_scale
    (max min_x_off (min max_x_off offset_x),
     max min_y_off (min max_y_off offset_y))

/-- BoundsClamp exactly as spec section 4.4 words it: per axis
maxOffset = -minIndex * tileSize * zoomScale,
minOffset = viewportExtent - (maxIndex+1) * tileSize * zoomScale,
result clamp(offset, minOffset, maxOffset); empty pyramid returns the
input unchanged. -/
def clampSpec (offsetX offsetY : ℚ) (keys : List (ℤ × ℤ))
    (viewportW viewportH : ℚ) (zoomScale : ℚ) : ℚ × ℚ :=
  if keys = [] then (offsetX, offsetY)
  else
    let cols := keys.map Prod.fst
    let rows := keys.map Prod.snd
    let minCol := listMin cols
    let maxCol := listMax cols
    let minRow := listMin rows
    let maxRow := listMax rows
    let maxOffX := -(minCol : ℚ) * TILE_SIZE * zoomScale
    let minOffX := viewportW - ((maxCol : ℚ) + 1) * TILE_SIZE * zoomScale
    let maxOffY := -(minRow : ℚ) * TILE_SIZE * zoomScale
    let minOffY := viewportH - ((maxRow : ℚ) + 1) * TILE_SIZE * zoomScale
    (max minOffX (min maxOffX offsetX), max minOffY (min maxOffY offsetY))

/-- Scenario A tile set: columns 0-3, rows 0-3 (spec section 8). -/
def scenarioATiles : List (ℤ × ℤ) :=
  [(0, 0), (0, 1), (0, 2), (0, 3),
   (1, 0), (1, 1), (1, 2), (1, 3),
   (2, 0), (2, 1), (2, 2), (2, 3),
   (3, 0), (3, 1), (3, 2), (3, 3)]

/-- One-axis clamping `max mn (min mx x)` is a fixed point of itself. -/
theorem clamp1_idem (mn mx x : ℚ) :
    max mn (min mx (max mn (min mx x))) = max mn (min mx x) := by
  rcases le_total mn (min mx x) with h | h
  · rw [max_eq_right h, min_eq_right (min_le_left mx x)]
    exact max_eq_right h
  · rw [max_eq_left h]
    exact max_eq_left (min_le_right mx mn)

/-- clamp_offset applied to its own output (same other arguments) is the
identity, empty key list included. -/
theorem clamp_offset_idem (ox oy : ℚ) (keys : List (ℤ × ℤ))
    (w h zs : ℚ) :
    clamp_offset (clamp_offset ox oy keys w h zs).1
      (clamp_offset ox oy keys w h zs).2 keys w h zs =
      clamp_offset ox oy keys w h zs := by
  by_cases hk : keys = []
  · simp [clamp_offset, hk]
  · simp only [clamp_offset, if_neg hk]
    exact Prod.ext (clamp1_idem _ _ _) (clamp1_idem _ _ _)

/-!  ## Viewer state machines

One state shape serves both viewers; `Img` is the (abstract) decoded
image type.  map.py never touches `log_entries`/`markers`; dash.py never
resizes.  -/

/-- The mutable frame-loop state of a viewer (map.py lines 99-106,
dash.py lines 168-185). -/
structure ViewState (Img : Type) where
  offset_x : ℚ
  offset_y : ℚ
  target_offset_x : ℚ
  target_offset_y : ℚ
  zoom_float : ℚ
  target_zoom : ℚ
  current_zoom : ℤ
  tiles : List ((ℤ × ℤ) × Img)
  cache : List ((ℤ × ℤ × ℤ) × Img)
  screen_w : ℚ
  screen_h : ℚ
  dragging : Bool
  drag_offset_start : ℚ × ℚ
  invert_enabled : Bool
  log_entries : List (ℚ × ℚ × ℚ)
  markers : List (ℚ × ℚ)

/-- The map.py MOUSEWHEEL handler (lines 276-289): unconditional ratio
`2 ** (new_target_zoom - target_zoom)`, offsets recomputed around the
mouse anchor, then clamped at the new target scale.  `pow2fn` stands for
Python `2 ** e` (the exponent is a float there). -/
def wheelStep {Img : Type} (MINZ MAXZ : ℚ) (pow2fn : ℚ → ℚ)
    (mx my : ℚ) (up : Bool) (s : ViewState Img) : ViewState Img :=
  let zoom_change : ℚ := if up then 1 else -1
  let new_target_zoom := max MINZ (min MAXZ (s.target_zoom + zoom_change))
  let zoom_ratio := pow2fn (new_target_zoom - s.target_zoom)
  let tox := mx - zoom_ratio * (mx - s.target_offset_x)
  let toy := my - zoom_ratio * (my - s.target_offset_y)
  let co := clamp_offset tox toy (s.tiles.map Prod.fst) s.screen_w
    s.screen_h (new_target_zoom / (s.current_zoom : ℚ))
  { s with target_zoom := new_target_zoom,
           target_offset_x := co.1, target_offset_y := co.2 }

/-- The dash.py MOUSEWHEEL handler (lines 524-534): same as the map.py
one except that the ratio is explicitly 1.0 when the clamped target zoom
did not change. -/
def dashWheelStep {Img : Type} (pow2fn : ℚ → ℚ)
    (mx my : ℚ) (up : Bool) (s : ViewState Img) : ViewState Img :=
  let zoom_change : ℚ := if up then 1 else -1
  let new_target_zoom :=
    max DashV.MIN_ZOOM (min DashV.MAX_ZOOM (s.target_zoom + zoom_change))
  let zoom_ratio :=
    if new_target_zoom ≠ s.target_zoom then
      pow2fn (new_target_zoom - s.target_zoom)
    else 1
  let tox := mx - zoom_ratio * (mx - s.target_offset_x)
  let toy := my - zoom_ratio * (my - s.target_offset_y)
  let co := clamp_offset tox toy (s.tiles.map Prod.fst) s.screen_w
    s.screen_h (new_target_zoom / (s.current_zoom : ℚ))
  { s with target_zoom := new_target_zoom,
           target_offset_x := co.1, target_offset_y := co.2 }

/-- MOUSEBUTTONDOWN starting a map drag (map.py lines 291-294, dash.py
lines 496-502): capture the target offset as the drag origin. -/
def buttonDownStep {Img : Type} (s : ViewState Img) : ViewState Img :=
  { s with dragging := true,
           drag_offset_start := (s.target_offset_x, s.target_offset_y) }

/-- MOUSEBUTTONUP (map.py lines 296-297, dash.py lines 504-509). -/
def buttonUpStep {Img : Type} (s : ViewState Img) : ViewState Img :=
  { s with dragging := false }

/-- MOUSEMOTION while dragging (map.py lines 299-309, dash.py lines
511-522): `(dx, dy)` is the pointer displacement since the button came
down; the clamp uses the smoothed scale `zoom_float / current_zoom`. -/
def motionStep {Img : Type} (dx dy : ℚ) (s : ViewState Img) :
    ViewState Img :=
  if s.dragging then
    let tox := s.drag_offset_start.1 + dx
    let toy := s.drag_offset_start.2 + dy
    let co := clamp_offset tox toy (s.tiles.map Prod.fst) s.screen_w
      s.screen_h (s.zoom_float / (s.current_zoom : ℚ))
    { s with target_offset_x := co.1, target_offset_y := co.2 }
  else s

/-- The zoom value after the per-frame lerp and re-clamp (map.py lines
317-318, dash.py lines 541-542). -/
def tickZoom {Img : Type} (MINZ MAXZ : ℚ) (s : ViewState Img) : ℚ :=
  max MINZ (min MAXZ (lerp s.zoom_float s.target_zoom SMOOTH_SPEED))

/-- The per-frame advancement: offset and zoom smoothing plus the
conditional zoom-level swap (map.py lines 314-326, dash.py lines
539-549).  `pyr` models `load_tiles` as a pure function of the level. -/
def tickStep {Img : Type} (MINZ MAXZ : ℚ)
    (pyr : ℤ → List ((ℤ × ℤ) × Img)) (s : ViewState Img) : ViewState Img :=
  let ox := lerp s.offset_x s.target_offset_x SMOOTH_SPEED
  let oy := lerp s.offset_y s.target_offset_y SMOOTH_SPEED
  let z2 := tickZoom MINZ MAXZ s
  let new_zoom_int := pyRound z2
  let s1 := { s with offset_x := ox, offset_y := oy, zoom_float := z2 }
  if new_zoom_int ≠ s.current_zoom then
    match pyr new_zoom_int with
    | [] => s1
    | t :: ts =>
      { s1 with tiles := t :: ts, cache := [],
                current_zoom := new_zoom_int }
  else s1

/-- VIDEORESIZE (map.py lines 272-274). -/
def resizeStep {Img : Type} (w h : ℚ) (s : ViewState Img) : ViewState Img :=
  { s with screen_w := w, screen_h := h }

/-- The K_i invert toggle (map.py lines 268-270). -/
def toggleInvertStep {Img : Type} (s : ViewState Img) : ViewState Img :=
  { s with invert_enabled := !s.invert_enabled }

/-- RETURN committing a log entry in dash.py (lines 428-441): the map
center world coordinate and the current zoom_float are appended to the
log and a marker is created.  map_x/map_y are the readout of the frame
(dash.py lines 285-295). -/
def dashSaveLogStep {Img : Type} (s : ViewState Img) : ViewState Img :=
  let zs := s.zoom_float / (s.current_zoom : ℚ)
  let map_x := ((⌊s.screen_w / 2⌋ : ℚ) - s.target_offset_x) / (TILE_SIZE * zs)
  let map_y := ((⌊s.screen_h / 2⌋ : ℚ) - s.target_offset_y) / (TILE_SIZE * zs)
  { s with log_entries := s.log_entries ++ [(map_x, map_y, s.zoom_float)],
           markers := s.markers ++ [(map_x, map_y)] }

/-- Clicking a stored log entry in dash.py (lines 477-493): set
target_zoom to the saved zoom, recenter the saved point, clamp at the
new target scale. -/
def dashClickEntryStep {Img : Type} (i : ℕ) (s : ViewState Img) :
    ViewState Img :=
  match s.log_entries.get? i with
  | none => s
  | some e =>
    let saved_x := e.1
    let saved_y := e.2.1
    let saved_zoom := e.2.2
    let tox := s.screen_w / 2 -
      saved_x * TILE_SIZE * (saved_zoom / (s.current_zoom : ℚ))
    let toy := s.screen_h / 2 -
      saved_y * TILE_SIZE * (saved_zoom / (s.current_zoom : ℚ))
    let co := clamp_offset tox toy (s.tiles.map Prod.fst) s.screen_w
      s.screen_h (saved_zoom / (s.current_zoom : ℚ))
    { s with target_zoom := saved_zoom,
             target_offset_x := co.1, target_offset_y := co.2 }

/-- Input events of the map.py frame loop. -/
inductive MEvent where
  | wheel (mx my : ℚ) (up : Bool)
  | buttonDown
  | buttonUp
  | motion (dx dy : ℚ)
  | resize (w h : ℚ)
  | toggleInvert
  | tick

/-- One map.py transition. -/
def mapStep {Img : Type} (pow2fn : ℚ → ℚ)
    (pyr : ℤ → List ((ℤ × ℤ) × Img)) :
    MEvent → ViewState Img → ViewState Img
  | .wheel mx my up, s => wheelStep MapV.MIN_ZOOM MapV.MAX_ZOOM pow2fn mx my up s
  | .buttonDown, s => buttonDownStep s
  | .buttonUp, s => buttonUpStep s
  | .motion dx dy, s => motionStep dx dy s
  | .resize w h, s => resizeStep w h s
  | .toggleInvert, s => toggleInvertStep s
  | .tick, s => tickStep MapV.MIN_ZOOM MapV.MAX_ZOOM pyr s

/-- The initial map.py state (lines 87, 99-106): 1024x768 window,
current_zoom = START_ZOOM = 2, tiles loaded for level 2, zero offsets,
zoom_float = target_zoom = 2. -/
def mapInit {Img : Type} (pyr : ℤ → List ((ℤ × ℤ) × Img)) : ViewState Img :=
  { offset_x := 0, offset_y := 0, target_offset_x := 0, target_offset_y := 0,
    zoom_float := MapV.START_ZOOM, target_zoom := MapV.START_ZOOM,
    current_zoom := 2, tiles := pyr 2, cache := [],
    screen_w := 1024, screen_h := 768,
    dragging := false, drag_offset_start := (0, 0), invert_enabled := false,
    log_entries := [], markers := [] }

/-- States the map.py frame loop can reach. -/
inductive ReachableMap {Img : Type} (pow2fn : ℚ → ℚ)
    (pyr : ℤ → List ((ℤ × ℤ) × Img)) : ViewState Img → Prop where
  | init : ReachableMap pow2fn pyr (mapInit pyr)
  | step (e : MEvent) (s : ViewState Img) :
      ReachableMap pow2fn pyr s → ReachableMap pow2fn pyr (mapStep pow2fn pyr e s)

/-- Input events of the dash.py frame loop. -/
inductive DEvent where
  | wheel (mx my : ℚ) (up : Bool)
  | buttonDown
  | buttonUp
  | motion (dx dy : ℚ)
  | toggleInvert
  | saveLog
  | clickEntry (i : ℕ)
  | tick

/-- One dash.py transition. -/
def dashStep {Img : Type} (pow2fn : ℚ → ℚ)
    (pyr : ℤ → List ((ℤ × ℤ) × Img)) :
    DEvent → ViewState Img → ViewState Img
  | .wheel mx my up, s => dashWheelStep pow2fn mx my up s
  | .buttonDown, s => buttonDownStep s
  | .buttonUp, s => buttonUpStep s
  | .motion dx dy, s => motionStep dx dy s
  | .toggleInvert, s => toggleInvertStep s
  | .saveLog, s => dashSaveLogStep s
  | .clickEntry i, s => dashClickEntryStep i s
  | .tick, s => tickStep DashV.MIN_ZOOM DashV.MAX_ZOOM pyr s

/-- The initial dash.py state (lines 157-185): fullscreen surface of the
given size, current_zoom = START_ZOOM = 2, zoom_float = target_zoom =
float(current_zoom) = 2, zero offsets, empty log. -/
def dashInit {Img : Type} (pyr : ℤ → List ((ℤ × ℤ) × Img)) (W H : ℤ) :
    ViewState Img :=
  { offset_x := 0, offset_y := 0, target_offset_x := 0, target_offset_y := 0,
    zoom_float := DashV.START_ZOOM, target_zoom := DashV.START_ZOOM,
    current_zoom := 2, tiles := pyr 2, cache := [],
    screen_w := (W : ℚ), screen_h := (H : ℚ),
    dragging := false, drag_offset_start := (0, 0), invert_enabled := true,
    log_entries := [], markers := [] }

/-- States the dash.py frame loop can reach. -/
inductive ReachableDash {Img : Type} (pow2fn : ℚ → ℚ)
    (pyr : ℤ → List ((ℤ × ℤ) × Img)) (W H : ℤ) : ViewState Img → Prop where
  | init : ReachableDash pow2fn pyr W H (dashInit pyr W H)
  | step (e : DEvent) (s : ViewState Img) :
      ReachableDash pow2fn pyr W H s →
        ReachableDash pow2fn pyr W H (dashStep pow2fn pyr e s)

/-!  ## Scaled-tile cache (map.py lines 133-141, dash.py lines 250-257) -/

/-- Association-list lookup standing for Python dict lookup. -/
def alistFind {K V : Type} [DecidableEq K] : List (K × V) → K → Option V
  | [], _ => none
  | (k, v) :: rest, key => if k = key then some v else alistFind rest key

/-- Outcome of one scaled-tile request: the image handed to `blit`, the
cache afterwards, and how many smoothscale resamples were performed. -/
structure ScaledResult (Img : Type) where
  img : Img
  cache : List ((ℤ × ℤ × ℤ) × Img)
  resamples : ℕ

/-- One scaled-tile request for tile (x, y): key is
(x, y, int(zoom_float * 100)); on a miss the tile is resampled to
int(TILE_SIZE * zoom_scale) square via `resample` (modelling
pygame.transform.smoothscale) and stored; on a hit the stored image is
returned unchanged.  Returns none when (x, y) is not in the snapshot
(that code path draws a placeholder instead). -/
def getScaledTile {Img : Type} (resample : Img → ℤ → Img)
    (tiles : List ((ℤ × ℤ) × Img)) (cache : List ((ℤ × ℤ × ℤ) × Img))
    (x y : ℤ) (zoom_float zoom_scale : ℚ) : Option (ScaledResult Img) :=
  match alistFind tiles (x, y) with
  | none => none
  | some tile =>
    let key : ℤ × ℤ × ℤ := (x, y, pytrunc (zoom_float * 100))
    match alistFind cache key with
    | some img => some ⟨img, cache, 0⟩
    | none =>
      let img := resample tile (pytrunc (TILE_SIZE * zoom_scale))
      some ⟨img, (key, img) :: cache, 1⟩

/-!  ## The dash.py rendering pipeline (claim C9)

The observable content of one composed dash.py frame, reduced to the
geometry the code computes: visible-range bounds, per-cell blit
positions and cache keys, marker blit positions, and the crosshair
world-coordinate readout.  -/

/-- Python `range(a, b + 1)` over ℤ. -/
def intRange (a b : ℤ) : List ℤ :=
  (List.range (b + 1 - a).toNat).map (fun i => a + (i : ℤ))

/-- Everything render-relevant that dash.py computes for one frame. -/
structure RenderOut where
  quantZoom : ℤ
  tileCells : List (ℤ × ℤ × ℤ × ℤ × Bool)
  markerPx : List (ℤ × ℤ)
  readout : ℚ × ℚ

/-- The dash.py full-screen frame composition: render_map over the large
rect (lines 234-268 — tile positions from target_offset and
zoom_scale = zoom_float / current_zoom), marker blits (lines 310-317),
and the center-crosshair readout (lines 285-301).  Each tile cell record
is (x, y, px, py, present). -/
def renderDash {Img : Type} (s : ViewState Img) : RenderOut :=
  let zs := s.zoom_float / (s.current_zoom : ℚ)
  let keys := s.tiles.map Prod.fst
  let tileCells :=
    if keys = [] then []
    else
      let min_x := listMin (keys.map Prod.fst)
      let max_x := listMax (keys.map Prod.fst)
      let min_y := listMin (keys.map Prod.snd)
      let max_y := listMax (keys.map Prod.snd)
      let start_x := max min_x (pytrunc (-s.target_offset_x / (TILE_SIZE * zs)))
      let end_x := min max_x (pytrunc ((s.screen_w - s.target_offset_x) / (TILE_SIZE * zs)) + 1)
      let start_y := max min_y (pytrunc (-s.target_offset_y / (TILE_SIZE * zs)))
      let end_y := min max_y (pytrunc ((s.screen_h - s.target_offset_y) / (TILE_SIZE * zs)) + 1)
      (intRange start_x end_x).flatMap (fun (x : ℤ) =>
        (intRange start_y end_y).map (fun (y : ℤ) =>
          (x, y, pytrunc ((x : ℚ) * TILE_SIZE * zs + s.target_offset_x),
           pytrunc ((y : ℚ) * TILE_SIZE * zs + s.target_offset_y),
           keys.contains (x, y))))
  let markerPx := s.markers.map (fun m =>
    (pytrunc (m.1 * TILE_SIZE * (s.zoom_float / (s.current_zoom : ℚ)) + s.target_offset_x),
     pytrunc (m.2 * TILE_SIZE * (s.zoom_float / (s.current_zoom : ℚ)) + s.target_offset_y)))
  let readout :=
    (((⌊s.screen_w / 2⌋ : ℚ) - s.target_offset_x) / (TILE_SIZE * zs),
     ((⌊s.screen_h / 2⌋ : ℚ) - s.target_offset_y) / (TILE_SIZE * zs))
  ⟨pytrunc (s.zoom_float * 100), tileCells, markerPx, readout⟩

/-!  ## Anchor-zoom arithmetic (claim C1) -/

/-- The target-offset recompute of the wheel handler, per axis (map.py lines
282-283, dash.py lines 531-532). -/
def wheelNewOffset (anchor target_offset ratio : ℚ) : ℚ :=
  anchor - ratio * (anchor - target_offset)

/-- World coordinate under a screen point, as the code computes it
(dash.py lines 294-295): (p - offset) / (TILE_SIZE * (zoom / activeLevel)). -/
def screenToWorld (p target_offset zoom activeLevel : ℚ) : ℚ :=
  (p - target_offset) / (TILE_SIZE * (zoom / activeLevel))

/-!  ## Claim theorems -/

/-- C6: clamp_offset is exactly the BoundsClamp of the spec — per axis
max(minOffset, min(maxOffset, offset)) with
maxOffset = -minIndex * TILE_SIZE * zoomScale and
minOffset = viewportExtent - (maxIndex+1) * TILE_SIZE * zoomScale, the
empty mapping passing offsets through unchanged — and on Scenario A
(tiles at columns 0-3, rows 0-3, viewport 800x600, scale 1) the
candidate (-2000, -2000) clamps to (-224, -424), which lies below the
maxOffset bound (0, 0), so the map never fully vacates the viewport. -/
theorem clamp_is_boundsclamp_and_scenarioA :
    (∀ (ox oy : ℚ) (keys : List (ℤ × ℤ)) (w h zs : ℚ),
      clamp_offset ox oy keys w h zs = clampSpec ox oy keys w h zs) ∧
    clamp_offset (-2000) (-2000) scenarioATiles 800 600 1 = (-224, -424) ∧
    (-(listMin (scenarioATiles.map Prod.fst) : ℚ) * TILE_SIZE * 1 = 0 ∧
      -(listMin (scenarioATiles.map Prod.snd) : ℚ) * TILE_SIZE * 1 = 0) ∧
    ((-224 : ℚ) ≤ 0 ∧ (-424 : ℚ) ≤ 0) := by
  refine ⟨fun ox oy keys w h zs => rfl, ?_, ?_, by norm_num⟩ <;>
    norm_num [clamp_offset, scenarioATiles, listMin, listMax, TILE_SIZE,
      min_def, max_def, List.cons_ne_nil]

/-- C10: clamp_offset is idempotent — re-applying it to its own result
with the same tiles, viewport and zoom scale returns that result
unchanged, for empty and non-empty key lists alike, the degenerate
minOffset > maxOffset axis included. -/
theorem clamp_offset_idempotent (ox oy : ℚ) (keys : List (ℤ × ℤ))
    (w h zs : ℚ) :
    clamp_offset (clamp_offset ox oy keys w h zs).1
      (clamp_offset ox oy keys w h zs).2 keys w h zs =
      clamp_offset ox oy keys w h zs :=
  clamp_offset_idem ox oy keys w h zs

/-- C3 counterexample: one tile (0, 0), viewport 800x600, zoom scale 1.
The x-axis range is degenerate (minOffset = 544 > 0 = maxOffset) and
clamp_offset returns (544, 344) for candidate (0, 0) — the x component
differs from the map-centering value (800 - 256)/2 - 0 = 272 the claim
demands. -/
theorem clamp_degenerate_not_centered :
    clamp_offset 0 0 [(0, 0)] 800 600 1 = (544, 344) ∧
    (-(listMin ([((0 : ℤ), (0 : ℤ))].map Prod.fst) : ℚ) * TILE_SIZE * 1 <
      800 - ((listMax ([((0 : ℤ), (0 : ℤ))].map Prod.fst) : ℚ) + 1) *
        TILE_SIZE * 1) ∧
    (clamp_offset 0 0 [(0, 0)] 800 600 1).1 ≠
      (800 - (1 : ℚ) * TILE_SIZE * 1) / 2 -
        (0 : ℚ) * TILE_SIZE * 1 := by
  refine ⟨?_, ?_, ?_⟩ <;>
    norm_num [clamp_offset, listMin, listMax, TILE_SIZE,
      min_def, max_def, List.cons_ne_nil]

/-- C3 (amended): on a degenerate axis (minOffset > maxOffset, scaled map
smaller than the viewport there) clamp_offset deterministically returns
minOffset = viewportExtent - (maxIndex+1) * TILE_SIZE * zoomScale on
that axis regardless of the candidate offset — it pins the far
(right/bottom) edge of the map to the far edge of the viewport, not the centering
value. -/
theorem clamp_degenerate_pins_far_edge (ox oy w h zs : ℚ)
    (keys : List (ℤ × ℤ)) (hne : keys ≠ []) :
    ((-(listMin (keys.map Prod.fst) : ℚ) * TILE_SIZE * zs <
        w - ((listMax (keys.map Prod.fst) : ℚ) + 1) * TILE_SIZE * zs) →
      (clamp_offset ox oy keys w h zs).1 =
        w - ((listMax (keys.map Prod.fst) : ℚ) + 1) * TILE_SIZE * zs) ∧
    ((-(listMin (keys.map Prod.snd) : ℚ) * TILE_SIZE * zs <
        h - ((listMax (keys.map Prod.snd) : ℚ) + 1) * TILE_SIZE * zs) →
      (clamp_offset ox oy keys w h zs).2 =
        h - ((listMax (keys.map Prod.snd) : ℚ) + 1) * TILE_SIZE * zs) := by
  constructor <;> intro hlt <;> simp only [clamp_offset, if_neg hne] <;>
    exact max_eq_left (le_trans (min_le_left _ _) (le_of_lt hlt))

/-- Witness for the amended C3 theorem at the single-tile input. -/
theorem clamp_degenerate_pins_far_edge_witness :
    (clamp_offset 0 0 [(0, 0)] 800 600 1).1 =
      800 - ((listMax ([((0 : ℤ), (0 : ℤ))].map Prod.fst) : ℚ) + 1) *
        TILE_SIZE * 1 :=
  (clamp_degenerate_pins_far_edge 0 0 800 600 1 [(0, 0)]
    (by simp)).1
    (by norm_num [listMin, listMax, TILE_SIZE])

/-- C1: the wheel handler recomputes the target offset with ratio
2^(newTargetZoom - oldTargetZoom) (here 2^(3-2) = 2 for the zoom from
level 2 toward level 3), but the viewers scale tiles by the linear
factor zoom/activeLevel, so the world coordinate under the anchor
(400, 300) is NOT preserved: with target offset 0 and active level 2 the
world x under the anchor moves from 25/16 to 25/12 tile units.  Exact
rational evaluation of the formulas of the code at the scenario of the
claim. -/
theorem anchor_zoom_moves_world_point :
    (2 : ℚ) = (2 : ℚ) ^ ((3 : ℤ) - 2) ∧
    wheelNewOffset 400 0 2 = -400 ∧
    screenToWorld 400 0 2 2 = 25 / 16 ∧
    screenToWorld 400 (wheelNewOffset 400 0 2) 3 2 = 25 / 12 ∧
    screenToWorld 400 (wheelNewOffset 400 0 2) 3 2 ≠
      screenToWorld 400 0 2 2 := by
  norm_num [wheelNewOffset, screenToWorld, TILE_SIZE]

/-- Lower bound of the one-axis clamp pattern. -/
theorem clampQ_lower (lo hi x : ℚ) : lo ≤ max lo (min hi x) :=
  le_max_left lo _

/-- Upper bound of the one-axis clamp pattern when lo ≤ hi. -/
theorem clampQ_upper (lo hi x : ℚ) (h : lo ≤ hi) : max lo (min hi x) ≤ hi :=
  max_le h (min_le_left hi x)

/-- tickStep only smooths offsets and zoom and possibly swaps the tile
snapshot: target values, the log and the interaction flags are
untouched, and zoom_float becomes tickZoom. -/
theorem tickStep_proj {Img : Type} (MINZ MAXZ : ℚ)
    (pyr : ℤ → List ((ℤ × ℤ) × Img)) (s : ViewState Img) :
    (tickStep MINZ MAXZ pyr s).zoom_float = tickZoom MINZ MAXZ s ∧
    (tickStep MINZ MAXZ pyr s).target_zoom = s.target_zoom ∧
    (tickStep MINZ MAXZ pyr s).target_offset_x = s.target_offset_x ∧
    (tickStep MINZ MAXZ pyr s).target_offset_y = s.target_offset_y ∧
    (tickStep MINZ MAXZ pyr s).log_entries = s.log_entries := by
  simp only [tickStep]
  split
  · split <;> exact ⟨rfl, rfl, rfl, rfl, rfl⟩
  · exact ⟨rfl, rfl, rfl, rfl, rfl⟩

/-- Zoom-range invariant of every reachable map.py state (the claimed
bounds hold in that variant). -/
theorem reachableMap_zoom_inv {Img : Type} (pow2fn : ℚ → ℚ)
    (pyr : ℤ → List ((ℤ × ℤ) × Img)) (s : ViewState Img)
    (h : ReachableMap pow2fn pyr s) :
    MapV.MIN_ZOOM ≤ s.zoom_float ∧ s.zoom_float ≤ MapV.MAX_ZOOM ∧
      MapV.MIN_ZOOM ≤ s.target_zoom ∧ s.target_zoom ≤ MapV.MAX_ZOOM := by
  induction h with
  | init =>
    norm_num [mapInit, MapV.START_ZOOM, MapV.MIN_ZOOM, MapV.MAX_ZOOM]
  | step e s hs ih =>
    obtain ⟨h1, h2, h3, h4⟩ := ih
    cases e with
    | wheel mx my up =>
      refine ⟨h1, h2, clampQ_lower _ _ _, clampQ_upper _ _ _ ?_⟩
      norm_num [MapV.MIN_ZOOM, MapV.MAX_ZOOM]
    | buttonDown => exact ⟨h1, h2, h3, h4⟩
    | buttonUp => exact ⟨h1, h2, h3, h4⟩
    | motion dx dy =>
      simp only [mapStep, motionStep]
      split <;> exact ⟨h1, h2, h3, h4⟩
    | resize w h => exact ⟨h1, h2, h3, h4⟩
    | toggleInvert => exact ⟨h1, h2, h3, h4⟩
    | tick =>
      obtain ⟨hz, ht, _, _, _⟩ :=
        tickStep_proj MapV.MIN_ZOOM MapV.MAX_ZOOM pyr s
      refine ⟨?_, ?_, ?_, ?_⟩
      · rw [show mapStep pow2fn pyr MEvent.tick s =
          tickStep MapV.MIN_ZOOM MapV.MAX_ZOOM pyr s from rfl, hz]
        exact clampQ_lower _ _ _
      · rw [show mapStep pow2fn pyr MEvent.tick s =
          tickStep MapV.MIN_ZOOM MapV.MAX_ZOOM pyr s from rfl, hz]
        refine clampQ_upper _ _ _ ?_
        norm_num [MapV.MIN_ZOOM, MapV.MAX_ZOOM]
      · rw [show mapStep pow2fn pyr MEvent.tick s =
          tickStep MapV.MIN_ZOOM MapV.MAX_ZOOM pyr s from rfl, ht]
        exact h3
      · rw [show mapStep pow2fn pyr MEvent.tick s =
          tickStep MapV.MIN_ZOOM MapV.MAX_ZOOM pyr s from rfl, ht]
        exact h4

/-- Zoom bounds of every reachable dash.py state: the START_ZOOM = 2
initial value can persist (and propagate through saved log entries), so
only min(START_ZOOM, MIN_ZOOM) = 2 is a lower bound, not MIN_ZOOM = 4. -/
theorem reachableDash_zoom_inv {Img : Type} (pow2fn : ℚ → ℚ)
    (pyr : ℤ → List ((ℤ × ℤ) × Img)) (W H : ℤ) (s : ViewState Img)
    (h : ReachableDash pow2fn pyr W H s) :
    (DashV.START_ZOOM ≤ s.zoom_float ∧ s.zoom_float ≤ DashV.MAX_ZOOM ∧
      DashV.START_ZOOM ≤ s.target_zoom ∧ s.target_zoom ≤ DashV.MAX_ZOOM) ∧
    ∀ e ∈ s.log_entries,
      DashV.START_ZOOM ≤ e.2.2 ∧ e.2.2 ≤ DashV.MAX_ZOOM := by
  induction h with
  | init =>
    refine ⟨?_, ?_⟩
    · norm_num [dashInit, DashV.START_ZOOM, DashV.MAX_ZOOM]
    · intro e he
      simp [dashInit] at he
  | step e s hs ih =>
    obtain ⟨⟨h1, h2, h3, h4⟩, hlog⟩ := ih
    cases e with
    | wheel mx my up =>
      refine ⟨⟨h1, h2, ?_, ?_⟩, hlog⟩
      · refine le_trans ?_ (clampQ_lower DashV.MIN_ZOOM _ _)
        norm_num [DashV.START_ZOOM, DashV.MIN_ZOOM]
      · refine clampQ_upper _ _ _ ?_
        norm_num [DashV.MIN_ZOOM, DashV.MAX_ZOOM]
    | buttonDown => exact ⟨⟨h1, h2, h3, h4⟩, hlog⟩
    | buttonUp => exact ⟨⟨h1, h2, h3, h4⟩, hlog⟩
    | motion dx dy =>
      simp only [dashStep, motionStep]
      split <;> exact ⟨⟨h1, h2, h3, h4⟩, hlog⟩
    | toggleInvert => exact ⟨⟨h1, h2, h3, h4⟩, hlog⟩
    | saveLog =>
      refine ⟨⟨h1, h2, h3, h4⟩, ?_⟩
      intro e he
      simp only [dashStep, dashSaveLogStep, List.mem_append,
        List.mem_singleton] at he
      rcases he with he | he
      · exact hlog e he
      · rw [he]
        exact ⟨h1, h2⟩
    | clickEntry i =>
      simp only [dashStep, dashClickEntryStep]
      cases hg : s.log_entries.get? i with
      | none => exact ⟨⟨h1, h2, h3, h4⟩, hlog⟩
      | some e =>
        have hmem : e ∈ s.log_entries := List.get?_mem hg
        obtain ⟨he1, he2⟩ := hlog e hmem
        exact ⟨⟨h1, h2, he1, he2⟩, hlog⟩
    | tick =>
      obtain ⟨hz, ht, _, _, hl⟩ :=
        tickStep_proj DashV.MIN_ZOOM DashV.MAX_ZOOM pyr s
      have hstep : dashStep pow2fn pyr DEvent.tick s =
          tickStep DashV.MIN_ZOOM DashV.MAX_ZOOM pyr s := rfl
      rw [hstep]
      refine ⟨⟨?_, ?_, ?_, ?_⟩, ?_⟩
      · rw [hz]
        refine le_trans ?_ (clampQ_lower DashV.MIN_ZOOM _ _)
        norm_num [DashV.START_ZOOM, DashV.MIN_ZOOM]
      · rw [hz]
        refine clampQ_upper _ _ _ ?_
        norm_num [DashV.MIN_ZOOM, DashV.MAX_ZOOM]
      · rw [ht]; exact h3
      · rw [ht]; exact h4
      · rw [hl]; exact hlog

/-- The everywhere-empty tile pyramid over the trivial image type. -/
def pyrEmptyU : ℤ → List ((ℤ × ℤ) × Unit) := fun _ => []

/-- C2 counterexample: the initial dash.py state is reachable (it is the
init of the machine) and there zoom_float = target_zoom = START_ZOOM = 2,
strictly below the MIN_ZOOM = 4 of that variant, so the claimed invariant
fails at it. -/
theorem dash_init_violates_zoom_invariant :
    ReachableDash pow2int pyrEmptyU 1920 1080 (dashInit pyrEmptyU 1920 1080) ∧
    (dashInit pyrEmptyU 1920 1080).target_zoom = 2 ∧
    (dashInit pyrEmptyU 1920 1080).zoom_float = 2 ∧
    ¬ DashV.MIN_ZOOM ≤ (dashInit pyrEmptyU 1920 1080).target_zoom ∧
    ¬ DashV.MIN_ZOOM ≤ (dashInit pyrEmptyU 1920 1080).zoom_float := by
  refine ⟨@ReachableDash.init Unit pow2int pyrEmptyU 1920 1080, ?_, ?_, ?_, ?_⟩ <;>
    norm_num [dashInit, DashV.START_ZOOM, DashV.MIN_ZOOM]

/-- C2 (amended): the claimed zoom-range invariant holds in every
reachable map.py state; in dash.py the initial START_ZOOM = 2 (< its
MIN_ZOOM = 4) can persist and re-enter through saved log entries, so the
invariant that holds there is min(START_ZOOM, MIN_ZOOM) = 2 ≤ zoom_float,
target_zoom ≤ MAX_ZOOM = 5 in every reachable state. -/
theorem zoom_range_invariant_amended :
    (∀ (Img : Type) (pow2fn : ℚ → ℚ) (pyr : ℤ → List ((ℤ × ℤ) × Img))
        (s : ViewState Img), ReachableMap pow2fn pyr s →
          MapV.MIN_ZOOM ≤ s.zoom_float ∧ s.zoom_float ≤ MapV.MAX_ZOOM ∧
          MapV.MIN_ZOOM ≤ s.target_zoom ∧ s.target_zoom ≤ MapV.MAX_ZOOM) ∧
    (∀ (Img : Type) (pow2fn : ℚ → ℚ) (pyr : ℤ → List ((ℤ × ℤ) × Img))
        (W H : ℤ) (s : ViewState Img), ReachableDash pow2fn pyr W H s →
          DashV.START_ZOOM ≤ s.zoom_float ∧ s.zoom_float ≤ DashV.MAX_ZOOM ∧
          DashV.START_ZOOM ≤ s.target_zoom ∧ s.target_zoom ≤ DashV.MAX_ZOOM) :=
  ⟨fun _ pow2fn pyr s h => reachableMap_zoom_inv pow2fn pyr s h,
   fun _ pow2fn pyr W H s h => (reachableDash_zoom_inv pow2fn pyr W H s h).1⟩

/-- Witness for the amended C2 theorem at the two initial states. -/
theorem zoom_range_invariant_amended_witness :
    (MapV.MIN_ZOOM ≤ (mapInit pyrEmptyU).zoom_float ∧
      (mapInit pyrEmptyU).zoom_float ≤ MapV.MAX_ZOOM ∧
      MapV.MIN_ZOOM ≤ (mapInit pyrEmptyU).target_zoom ∧
      (mapInit pyrEmptyU).target_zoom ≤ MapV.MAX_ZOOM) ∧
    (DashV.START_ZOOM ≤ (dashInit pyrEmptyU 1920 1080).zoom_float ∧
      (dashInit pyrEmptyU 1920 1080).zoom_float ≤ DashV.MAX_ZOOM ∧
      DashV.START_ZOOM ≤ (dashInit pyrEmptyU 1920 1080).target_zoom ∧
      (dashInit pyrEmptyU 1920 1080).target_zoom ≤ DashV.MAX_ZOOM) :=
  ⟨zoom_range_invariant_amended.1 Unit pow2int pyrEmptyU _
      (@ReachableMap.init Unit pow2int pyrEmptyU),
   zoom_range_invariant_amended.2 Unit pow2int pyrEmptyU 1920 1080 _
      (@ReachableDash.init Unit pow2int pyrEmptyU 1920 1080)⟩

/-- The level-2 pyramid of the C4 counterexample: tiles at columns 1-4,
rows 1-4 (minimum index 1, so the maxOffset bound moves with the zoom
scale). -/
def pyrCols14 : ℤ → List ((ℤ × ℤ) × Unit) := fun z =>
  if z = 2 then
    [((1, 1), ()), ((1, 2), ()), ((1, 3), ()), ((1, 4), ()),
     ((2, 1), ()), ((2, 2), ()), ((2, 3), ()), ((2, 4), ()),
     ((3, 1), ()), ((3, 2), ()), ((3, 3), ()), ((3, 4), ()),
     ((4, 1), ()), ((4, 2), ()), ((4, 3), ()), ((4, 4), ())]
  else []

/-- The C4 counterexample trace: from the map.py initial state, wheel up
at (0, 0) (target zoom 2 to 3, offsets clamped at scale 3/2 to
(-384, -384)), press the mouse button, then drag by (+1000, +1000). -/
def c4Trace : ViewState Unit :=
  mapStep pow2int pyrCols14 (MEvent.motion 1000 1000)
    (mapStep pow2int pyrCols14 MEvent.buttonDown
      (mapStep pow2int pyrCols14 (MEvent.wheel 0 0 true)
        (mapInit pyrCols14)))

/-- C4 counterexample: after the wheel-then-pan sequence of `c4Trace`
(non-empty tiles throughout) the pan handler clamped at the smoothed
scale zoom_float/current_zoom = 1 and produced target offset
(-256, -256), but re-applying clamp_offset at the target scale
target_zoom/current_zoom = 3/2 moves it to (-384, -384): the target
offset does not lie in the claimed range. -/
theorem pan_leaves_target_scale_range :
    c4Trace.target_offset_x = -256 ∧
    c4Trace.target_offset_y = -256 ∧
    c4Trace.target_zoom = 3 ∧
    c4Trace.current_zoom = 2 ∧
    c4Trace.zoom_float = 2 ∧
    c4Trace.tiles ≠ [] ∧
    clamp_offset c4Trace.target_offset_x c4Trace.target_offset_y
        (c4Trace.tiles.map Prod.fst) c4Trace.screen_w c4Trace.screen_h
        (c4Trace.target_zoom / (c4Trace.current_zoom : ℚ)) =
      (-384, -384) ∧
    clamp_offset c4Trace.target_offset_x c4Trace.target_offset_y
        (c4Trace.tiles.map Prod.fst) c4Trace.screen_w c4Trace.screen_h
        (c4Trace.target_zoom / (c4Trace.current_zoom : ℚ)) ≠
      (c4Trace.target_offset_x, c4Trace.target_offset_y) := by
  have hx : c4Trace.target_offset_x = -256 := by
    norm_num [c4Trace, mapStep, mapInit, wheelStep, buttonDownStep,
      motionStep, clamp_offset, pyrCols14, listMin, listMax, TILE_SIZE,
      MapV.START_ZOOM, MapV.MIN_ZOOM, MapV.MAX_ZOOM, pow2int,
      min_def, max_def, List.cons_ne_nil]
  have hy : c4Trace.target_offset_y = -256 := by
    norm_num [c4Trace, mapStep, mapInit, wheelStep, buttonDownStep,
      motionStep, clamp_offset, pyrCols14, listMin, listMax, TILE_SIZE,
      MapV.START_ZOOM, MapV.MIN_ZOOM, MapV.MAX_ZOOM, pow2int,
      min_def, max_def, List.cons_ne_nil]
  have hz : c4Trace.target_zoom = 3 := by
    norm_num [c4Trace, mapStep, mapInit, wheelStep, buttonDownStep,
      motionStep, clamp_offset, pyrCols14, listMin, listMax, TILE_SIZE,
      MapV.START_ZOOM, MapV.MIN_ZOOM, MapV.MAX_ZOOM, pow2int,
      min_def, max_def, List.cons_ne_nil]
  have hc : c4Trace.current_zoom = 2 := by
    norm_num [c4Trace, mapStep, mapInit, wheelStep, buttonDownStep,
      motionStep, pyrCols14, min_def, max_def]
  have hf : c4Trace.zoom_float = 2 := by
    norm_num [c4Trace, mapStep, mapInit, wheelStep, buttonDownStep,
      motionStep, pyrCols14, MapV.START_ZOOM, min_def, max_def]
  have hw : c4Trace.screen_w = 1024 := by
    norm_num [c4Trace, mapStep, mapInit, wheelStep, buttonDownStep,
      motionStep, pyrCols14, min_def, max_def]
  have hh : c4Trace.screen_h = 768 := by
    norm_num [c4Trace, mapStep, mapInit, wheelStep, buttonDownStep,
      motionStep, pyrCols14, min_def, max_def]
  have ht : c4Trace.tiles = pyrCols14 2 := by
    norm_num [c4Trace, mapStep, mapInit, wheelStep, buttonDownStep,
      motionStep, pyrCols14, min_def, max_def]
  refine ⟨hx, hy, hz, hc, hf, ?_, ?_, ?_⟩
  · rw [ht]
    simp [pyrCols14]
  · rw [hx, hy, hz, hc, hw, hh, ht]
    norm_num [clamp_offset, pyrCols14, listMin, listMax, TILE_SIZE,
      min_def, max_def, List.cons_ne_nil]
  · rw [hx, hy, hz, hc, hw, hh, ht]
    norm_num [clamp_offset, pyrCols14, listMin, listMax, TILE_SIZE,
      min_def, max_def, List.cons_ne_nil, Prod.ext_iff]

/-- C4 (amended): the target offset is a fixed point of clamp_offset at
the scale the handler that last set it actually used: after a wheel
event (either variant) that is the claimed target scale
target_zoom/current_zoom, but after a pan motion it is the smoothed
scale zoom_float/current_zoom, not the target scale. -/
theorem target_offset_fixed_at_handler_scale {Img : Type}
    (MINZ MAXZ : ℚ) (pow2fn : ℚ → ℚ) (mx my dx dy : ℚ) (up : Bool)
    (s : ViewState Img) :
    (clamp_offset (wheelStep MINZ MAXZ pow2fn mx my up s).target_offset_x
        (wheelStep MINZ MAXZ pow2fn mx my up s).target_offset_y
        ((wheelStep MINZ MAXZ pow2fn mx my up s).tiles.map Prod.fst)
        (wheelStep MINZ MAXZ pow2fn mx my up s).screen_w
        (wheelStep MINZ MAXZ pow2fn mx my up s).screen_h
        ((wheelStep MINZ MAXZ pow2fn mx my up s).target_zoom /
          ((wheelStep MINZ MAXZ pow2fn mx my up s).current_zoom : ℚ)) =
      ((wheelStep MINZ MAXZ pow2fn mx my up s).target_offset_x,
        (wheelStep MINZ MAXZ pow2fn mx my up s).target_offset_y)) ∧
    (clamp_offset (dashWheelStep pow2fn mx my up s).target_offset_x
        (dashWheelStep pow2fn mx my up s).target_offset_y
        ((dashWheelStep pow2fn mx my up s).tiles.map Prod.fst)
        (dashWheelStep pow2fn mx my up s).screen_w
        (dashWheelStep pow2fn mx my up s).screen_h
        ((dashWheelStep pow2fn mx my up s).target_zoom /
          ((dashWheelStep pow2fn mx my up s).current_zoom : ℚ)) =
      ((dashWheelStep pow2fn mx my up s).target_offset_x,
        (dashWheelStep pow2fn mx my up s).target_offset_y)) ∧
    (s.dragging = true →
      clamp_offset (motionStep dx dy s).target_offset_x
          (motionStep dx dy s).target_offset_y
          ((motionStep dx dy s).tiles.map Prod.fst)
          (motionStep dx dy s).screen_w (motionStep dx dy s).screen_h
          ((motionStep dx dy s).zoom_float /
            ((motionStep dx dy s).current_zoom : ℚ)) =
        ((motionStep dx dy s).target_offset_x,
          (motionStep dx dy s).target_offset_y)) := by
  refine ⟨?_, ?_, ?_⟩
  · exact (clamp_offset_idem _ _ _ _ _ _).trans Prod.mk.eta.symm
  · exact (clamp_offset_idem _ _ _ _ _ _).trans Prod.mk.eta.symm
  · intro hd
    simp only [motionStep, hd, if_true]
    exact (clamp_offset_idem _ _ _ _ _ _).trans Prod.mk.eta.symm

/-- Witness for the amended C4 theorem: the pan clause at the state of
the counterexample trace right after the button press. -/
theorem target_offset_fixed_at_handler_scale_witness :
    clamp_offset
        (motionStep 1000 1000
          (buttonDownStep
            (mapStep pow2int pyrCols14 (MEvent.wheel 0 0 true)
              (mapInit pyrCols14)))).target_offset_x
        (motionStep 1000 1000
          (buttonDownStep
            (mapStep pow2int pyrCols14 (MEvent.wheel 0 0 true)
              (mapInit pyrCols14)))).target_offset_y
        ((motionStep 1000 1000
          (buttonDownStep
            (mapStep pow2int pyrCols14 (MEvent.wheel 0 0 true)
              (mapInit pyrCols14)))).tiles.map Prod.fst)
        (motionStep 1000 1000
          (buttonDownStep
            (mapStep pow2int pyrCols14 (MEvent.wheel 0 0 true)
              (mapInit pyrCols14)))).screen_w
        (motionStep 1000 1000
          (buttonDownStep
            (mapStep pow2int pyrCols14 (MEvent.wheel 0 0 true)
              (mapInit pyrCols14)))).screen_h
        ((motionStep 1000 1000
          (buttonDownStep
            (mapStep pow2int pyrCols14 (MEvent.wheel 0 0 true)
              (mapInit pyrCols14)))).zoom_float /
          ((motionStep 1000 1000
            (buttonDownStep
              (mapStep pow2int pyrCols14 (MEvent.wheel 0 0 true)
                (mapInit pyrCols14)))).current_zoom : ℚ)) =
      ((motionStep 1000 1000
          (buttonDownStep
            (mapStep pow2int pyrCols14 (MEvent.wheel 0 0 true)
              (mapInit pyrCols14)))).target_offset_x,
        (motionStep 1000 1000
          (buttonDownStep
            (mapStep pow2int pyrCols14 (MEvent.wheel 0 0 true)
              (mapInit pyrCols14)))).target_offset_y) :=
  (target_offset_fixed_at_handler_scale MapV.MIN_ZOOM MapV.MAX_ZOOM
    pow2int 0 0 1000 1000 true
    (buttonDownStep
      (mapStep pow2int pyrCols14 (MEvent.wheel 0 0 true)
        (mapInit pyrCols14)))).2.2 rfl

/-- C5: the per-frame step swaps the level atomically — when the rounded
smoothed zoom equals current_zoom, or differs from it but load_tiles of
the new level returns an empty mapping, the frame leaves the tiles
snapshot, the scaled-tile cache and current_zoom all unchanged; only
when the new mapping is non-empty do the snapshot swap, cache clear and
current_zoom update happen, and then all three together. -/
theorem level_swap_atomic {Img : Type} (MINZ MAXZ : ℚ)
    (pyr : ℤ → List ((ℤ × ℤ) × Img)) (s : ViewState Img) :
    (pyRound (tickZoom MINZ MAXZ s) = s.current_zoom →
      (tickStep MINZ MAXZ pyr s).tiles = s.tiles ∧
      (tickStep MINZ MAXZ pyr s).cache = s.cache ∧
      (tickStep MINZ MAXZ pyr s).current_zoom = s.current_zoom) ∧
    (pyRound (tickZoom MINZ MAXZ s) ≠ s.current_zoom →
      pyr (pyRound (tickZoom MINZ MAXZ s)) = [] →
      (tickStep MINZ MAXZ pyr s).tiles = s.tiles ∧
      (tickStep MINZ MAXZ pyr s).cache = s.cache ∧
      (tickStep MINZ MAXZ pyr s).current_zoom = s.current_zoom) ∧
    (pyRound (tickZoom MINZ MAXZ s) ≠ s.current_zoom →
      pyr (pyRound (tickZoom MINZ MAXZ s)) ≠ [] →
      (tickStep MINZ MAXZ pyr s).tiles =
        pyr (pyRound (tickZoom MINZ MAXZ s)) ∧
      (tickStep MINZ MAXZ pyr s).cache = [] ∧
      (tickStep MINZ MAXZ pyr s).current_zoom =
        pyRound (tickZoom MINZ MAXZ s)) := by
  refine ⟨?_, ?_, ?_⟩
  · intro h
    simp [tickStep, h]
  · intro h he
    simp [tickStep, h, he]
  · intro h hne
    cases hp : pyr (pyRound (tickZoom MINZ MAXZ s)) with
    | nil => exact absurd hp hne
    | cons t ts => simp [tickStep, h, hp]

/-- The pyramid that only has one tile at level 4 (used as the witness
target of a non-empty swap). -/
def pyrLevel4 : ℤ → List ((ℤ × ℤ) × Unit) := fun z =>
  if z = 4 then [((0, 0), ())] else []

/-- Witness for the C5 theorem: from the dash.py initial state the tick
rounds the re-clamped zoom to 4 ≠ current_zoom 2; with an everywhere
empty pyramid nothing changes, and with a pyramid that has a tile at
level 4 all three of snapshot, cache and current_zoom switch together. -/
theorem level_swap_atomic_witness :
    ((tickStep DashV.MIN_ZOOM DashV.MAX_ZOOM pyrEmptyU
        (dashInit pyrEmptyU 1920 1080)).tiles =
        (dashInit pyrEmptyU 1920 1080).tiles ∧
      (tickStep DashV.MIN_ZOOM DashV.MAX_ZOOM pyrEmptyU
        (dashInit pyrEmptyU 1920 1080)).cache =
        (dashInit pyrEmptyU 1920 1080).cache ∧
      (tickStep DashV.MIN_ZOOM DashV.MAX_ZOOM pyrEmptyU
        (dashInit pyrEmptyU 1920 1080)).current_zoom =
        (dashInit pyrEmptyU 1920 1080).current_zoom) ∧
    ((tickStep DashV.MIN_ZOOM DashV.MAX_ZOOM pyrLevel4
        (dashInit pyrLevel4 1920 1080)).tiles =
        pyrLevel4 (pyRound (tickZoom DashV.MIN_ZOOM DashV.MAX_ZOOM
          (dashInit pyrLevel4 1920 1080))) ∧
      (tickStep DashV.MIN_ZOOM DashV.MAX_ZOOM pyrLevel4
        (dashInit pyrLevel4 1920 1080)).cache = [] ∧
      (tickStep DashV.MIN_ZOOM DashV.MAX_ZOOM pyrLevel4
        (dashInit pyrLevel4 1920 1080)).current_zoom =
        pyRound (tickZoom DashV.MIN_ZOOM DashV.MAX_ZOOM
          (dashInit pyrLevel4 1920 1080))) :=
  ⟨(level_swap_atomic DashV.MIN_ZOOM DashV.MAX_ZOOM pyrEmptyU
      (dashInit pyrEmptyU 1920 1080)).2.1
      (by norm_num [tickZoom, lerp, dashInit, pyRound, DashV.START_ZOOM,
        DashV.MIN_ZOOM, DashV.MAX_ZOOM, SMOOTH_SPEED, min_def, max_def])
      rfl,
   (level_swap_atomic DashV.MIN_ZOOM DashV.MAX_ZOOM pyrLevel4
      (dashInit pyrLevel4 1920 1080)).2.2
      (by norm_num [tickZoom, lerp, dashInit, pyRound, DashV.START_ZOOM,
        DashV.MIN_ZOOM, DashV.MAX_ZOOM, SMOOTH_SPEED, min_def, max_def])
      (by norm_num [tickZoom, lerp, dashInit, pyRound, pyrLevel4,
        DashV.START_ZOOM, DashV.MIN_ZOOM, DashV.MAX_ZOOM, SMOOTH_SPEED,
        min_def, max_def])⟩

/-- C7 counterexample: the dash.py initial state has offset equal to
target offset and zoom_float equal to target_zoom, yet one tick changes
it: zoom_float = 2 is below the MIN_ZOOM = 4 of that variant, so the
post-lerp re-clamp snaps it to 4. -/
theorem dash_init_tick_not_idempotent :
    (dashInit pyrEmptyU 1920 1080).offset_x =
      (dashInit pyrEmptyU 1920 1080).target_offset_x ∧
    (dashInit pyrEmptyU 1920 1080).offset_y =
      (dashInit pyrEmptyU 1920 1080).target_offset_y ∧
    (dashInit pyrEmptyU 1920 1080).zoom_float =
      (dashInit pyrEmptyU 1920 1080).target_zoom ∧
    (dashInit pyrEmptyU 1920 1080).zoom_float = 2 ∧
    (tickStep DashV.MIN_ZOOM DashV.MAX_ZOOM pyrEmptyU
      (dashInit pyrEmptyU 1920 1080)).zoom_float = 4 ∧
    (tickStep DashV.MIN_ZOOM DashV.MAX_ZOOM pyrEmptyU
        (dashInit pyrEmptyU 1920 1080)).zoom_float ≠
      (dashInit pyrEmptyU 1920 1080).zoom_float := by
  obtain ⟨hz, -⟩ := tickStep_proj DashV.MIN_ZOOM DashV.MAX_ZOOM pyrEmptyU
    (dashInit pyrEmptyU 1920 1080)
  refine ⟨rfl, rfl, rfl, rfl, ?_, ?_⟩ <;> rw [hz] <;>
    norm_num [tickZoom, lerp, dashInit, DashV.START_ZOOM, DashV.MIN_ZOOM,
      DashV.MAX_ZOOM, SMOOTH_SPEED, min_def, max_def]

/-- C7 (amended): for a state with offset = targetOffset and
zoom_float = target_zoom that additionally has zoom_float within
[MIN_ZOOM, MAX_ZOOM] and round(zoom_float) already equal to
current_zoom, any number of per-frame steps leaves the state exactly
unchanged (offsets, zooms, current_zoom, tiles snapshot and cache). -/
theorem tick_idempotent_on_settled_states {Img : Type} (MINZ MAXZ : ℚ)
    (pyr : ℤ → List ((ℤ × ℤ) × Img)) (s : ViewState Img)
    (hox : s.offset_x = s.target_offset_x)
    (hoy : s.offset_y = s.target_offset_y)
    (hzz : s.zoom_float = s.target_zoom)
    (hlo : MINZ ≤ s.zoom_float) (hhi : s.zoom_float ≤ MAXZ)
    (hcz : pyRound s.zoom_float = s.current_zoom) :
    ∀ n : ℕ, (tickStep MINZ MAXZ pyr)^[n] s = s := by
  have hlerp_x : lerp s.offset_x s.target_offset_x SMOOTH_SPEED = s.offset_x := by
    rw [← hox]
    simp [lerp]
  have hlerp_y : lerp s.offset_y s.target_offset_y SMOOTH_SPEED = s.offset_y := by
    rw [← hoy]
    simp [lerp]
  have hlerp_z : lerp s.zoom_float s.target_zoom SMOOTH_SPEED = s.zoom_float := by
    rw [← hzz]
    simp [lerp]
  have htz : tickZoom MINZ MAXZ s = s.zoom_float := by
    rw [tickZoom, hlerp_z, min_eq_right hhi, max_eq_right hlo]
  have hfix : tickStep MINZ MAXZ pyr s = s := by
    rw [tickStep]
    simp only [htz, hcz, ne_eq, not_true_eq_false, if_false, hlerp_x,
      hlerp_y, ite_self]
  intro n
  induction n with
  | zero => rfl
  | succ k ih => rw [Function.iterate_succ_apply, hfix, ih]

/-- Witness for the amended C7 theorem: the map.py initial state (with
an empty pyramid) is settled, in zoom range, with round(2) = 2 =
current_zoom, and five ticks leave it unchanged. -/
theorem tick_idempotent_on_settled_states_witness :
    (tickStep MapV.MIN_ZOOM MapV.MAX_ZOOM pyrEmptyU)^[5]
      (mapInit pyrEmptyU) = mapInit pyrEmptyU :=
  tick_idempotent_on_settled_states MapV.MIN_ZOOM MapV.MAX_ZOOM
    pyrEmptyU (mapInit pyrEmptyU) rfl rfl rfl
    (by norm_num [mapInit, MapV.START_ZOOM, MapV.MIN_ZOOM])
    (by norm_num [mapInit, MapV.START_ZOOM, MapV.MAX_ZOOM])
    (by norm_num [mapInit, pyRound, MapV.START_ZOOM, min_def, max_def]) 5

/-- C8: for a fixed tiles snapshot, a request whose quantized key
(x, y, int(zoom_float * 100)) misses the cache resamples tiles[(x, y)]
to the int(TILE_SIZE * zoom_scale) square exactly once and stores the
result under that key; a request that hits the key returns exactly the
stored image with zero resamples and an unchanged cache — in particular
the second of two identical requests returns the image stored by the
first, so at most one resample happens per quantized key between cache
clears. -/
theorem scaled_tile_cache_memoizes {Img : Type} (resample : Img → ℤ → Img)
    (tiles : List ((ℤ × ℤ) × Img)) (cache : List ((ℤ × ℤ × ℤ) × Img))
    (x y : ℤ) (zf zs : ℚ) (tile : Img)
    (ht : alistFind tiles (x, y) = some tile) :
    (∀ img, alistFind cache (x, y, pytrunc (zf * 100)) = some img →
      getScaledTile resample tiles cache x y zf zs = some ⟨img, cache, 0⟩) ∧
    (alistFind cache (x, y, pytrunc (zf * 100)) = none →
      getScaledTile resample tiles cache x y zf zs =
        some ⟨resample tile (pytrunc (TILE_SIZE * zs)),
          ((x, y, pytrunc (zf * 100)),
            resample tile (pytrunc (TILE_SIZE * zs))) :: cache, 1⟩ ∧
      getScaledTile resample tiles
          (((x, y, pytrunc (zf * 100)),
            resample tile (pytrunc (TILE_SIZE * zs))) :: cache) x y zf zs =
        some ⟨resample tile (pytrunc (TILE_SIZE * zs)),
          ((x, y, pytrunc (zf * 100)),
            resample tile (pytrunc (TILE_SIZE * zs))) :: cache, 0⟩) := by
  constructor
  · intro img himg
    simp [getScaledTile, ht, himg]
  · intro hmiss
    constructor
    · simp [getScaledTile, ht, hmiss]
    · simp [getScaledTile, ht, alistFind]

/-- Witness for the C8 theorem with ℕ images: tile 7 at (0, 0),
resampling modelled as combining image and size, zoom_float = 2 and
zoom_scale = 1 starting from an empty cache. -/
theorem scaled_tile_cache_memoizes_witness :
    getScaledTile (fun t sz => t * 1000 + sz.natAbs) [((0, 0), 7)] []
        0 0 2 1 =
      some ⟨7256, ((0, 0, 200), 7256) :: [], 1⟩ ∧
    getScaledTile (fun t sz => t * 1000 + sz.natAbs) [((0, 0), 7)]
        (((0, 0, 200), 7256) :: []) 0 0 2 1 =
      some ⟨7256, ((0, 0, 200), 7256) :: [], 0⟩ := by
  have h := (scaled_tile_cache_memoizes
    (fun (t : ℕ) (sz : ℤ) => t * 1000 + sz.natAbs) [((0, 0), 7)] []
    0 0 2 1 7 (by simp [alistFind])).2 (by simp [alistFind])
  have e1 : pytrunc ((2 : ℚ) * 100) = 200 := by
    norm_num [pytrunc]
  have e2 : pytrunc (TILE_SIZE * (1 : ℚ)) = 256 := by
    norm_num [pytrunc, TILE_SIZE]
  rw [e1, e2] at h
  norm_num at h
  exact h

/-- C9: the dash.py frame composition is independent of the smoothed
offset — every rendered quantity (visible tile range, tile blit
positions and cache keys, marker positions, crosshair world readout)
reads target_offset_x/target_offset_y and zoom_float only, so two
states differing only in offset_x and offset_y render identically. -/
theorem dash_render_ignores_smoothed_offset {Img : Type}
    (s : ViewState Img) (ox oy : ℚ) :
    renderDash { s with offset_x := ox, offset_y := oy } = renderDash s :=
  rfl

end MapZ
